import Mathlib

/-!
Shallow embedding of the Mode Orchestration & Valve Timeline Engine of
`src/pool-controller.js` (rpi-pool-controller).

Modelling conventions:
* JavaScript numbers (valve percentages, epoch milliseconds) are embedded as
  rationals `ℚ`; every arithmetic step in the source is plain `+ - * /` on
  finite values, so exact rational arithmetic is the intended semantics.
* The enumerated string fields of `EquipmentState` (`"on"/"off"`,
  `"low"/"high"`, `"pool"/"spa"`) stay `String`s, compared with equality,
  exactly as the source compares them.
* `Date.now()` becomes an explicit time parameter.  All `Date.now()` calls in
  one synchronous stretch of JS return the same tick in the model.
* The relay driver (`gpio[pin].digitalWrite`) can throw; a fault oracle
  `driver : Nat → Option String` gives, for the n-th `applyEquipmentState`
  call of a transition (0 = pre-wait apply, 1 = post-wait apply), either
  `none` (success) or `some msg` (the call throws with message `msg`, the JS
  `String(e)` of the exception).  The recovery apply in the `catch` block is
  modelled as succeeding.
* Module-level flags irrelevant to the orchestrator (`simulatorMode`,
  `gpioHardwareAvailable`) are omitted from the status payload model.
-/

namespace PoolSpec

/-- Embeds `class EquipmentState` (pool-controller.js lines 18-40): snapshot of
pump/valve/heater configuration, with its constructor defaults. -/
structure EquipmentState where
  pump : String := "off"
  pumpSpeed : String := "low"
  inflowValve : String := "pool"
  outflowValve : String := "pool"
  heater : String := "off"
deriving DecidableEq, Repr

instance : Inhabited EquipmentState := ⟨{}⟩

/-- Embeds `class ModeConfig` (lines 42-77): a named catalog entry embedding a
target `EquipmentState`. -/
structure ModeConfig where
  key : String
  name : String := ""
  description : String := ""
  order : Int := 999
  equipment : EquipmentState
  color : String := ""
deriving DecidableEq, Repr

/-- The mode catalog (`modes : Map key → ModeConfig`), as an association
list; `getMode` is `modes.get(key)`. -/
def getMode (modes : List ModeConfig) (key : String) : Option ModeConfig :=
  modes.find? (fun m => m.key == key)

/-- Embeds `modes.has(key)`. -/
def hasMode (modes : List ModeConfig) (key : String) : Bool :=
  (getMode modes key).isSome

/-- Stable insertion keeping ascending `order` (the comparator
`(a, b) => a.order - b.order` of `getSortedModes`). -/
def insertByOrder (m : ModeConfig) : List ModeConfig → List ModeConfig
  | [] => [m]
  | x :: xs => if x.order ≤ m.order then x :: insertByOrder m xs else m :: x :: xs

/-- Embeds `ModeConfig.getSortedModes` (lines 74-76): catalog sorted by `order`. -/
def getSortedModes (modes : List ModeConfig) : List ModeConfig :=
  modes.foldr insertByOrder []

/-- Embeds `VALVE_WAIT_MS = 30_000` (line 152). -/
def VALVE_WAIT_MS : ℚ := 30000

/-- The valve timeline record (lines 298-305).  `«from»` is the source
percentage (`valve.from`; `from` is a Lean keyword). -/
structure Valve where
  percent : ℚ := 0
  moving : Bool := false
  «from» : ℚ := 0
  «to» : ℚ := 0
  startMs : ℚ := 0
  durationMs : ℚ := VALVE_WAIT_MS
deriving DecidableEq, Repr

/-- Embeds `currentValvePercent()` (lines 306-310): interpolated position at time
`now`; `Math.max(0, Math.min(1, (now - startMs) / durationMs))` clamps the
progress. -/
def currentValvePercent (valve : Valve) (now : ℚ) : ℚ :=
  if valve.moving then
    valve.«from» + (valve.«to» - valve.«from») *
      (max 0 (min 1 ((now - valve.startMs) / valve.durationMs)))
  else
    valve.percent

/-- The operation status record (lines 290-295).  `target = none` models the
JS `null`. -/
structure Status where
  mode : String := "auto"
  target : Option String := none
  busy : Bool := false
  lastError : Option String := none
deriving DecidableEq, Repr

/-- Relay-pin levels computed by `applyEquipmentState` (lines 102-108). -/
structure GpioStates where
  PUMP : Nat := 0
  PUMP_TURBO : Nat := 0
  RELAY_INFLOW : Nat := 0
  RELAY_OUTFLOW : Nat := 0
  HEATER_SPA : Nat := 0
deriving DecidableEq, Repr

/-- The mutable part of `class PoolController` that the orchestrator reads:
`currentState` and `gpioStates` (lines 79-137).  The simulator flag only
changes logging, not these fields. -/
structure Controller where
  currentState : EquipmentState := {}
  gpioStates : GpioStates := {}
deriving DecidableEq, Repr

/-- Embeds `PoolController.applyEquipmentState` (lines 98-124): stores a copy of the
state and recomputes the five pin levels. -/
def applyEquipmentState (equipmentState : EquipmentState) (c : Controller) : Controller :=
  { c with
    currentState := equipmentState,
    gpioStates :=
      { PUMP := if equipmentState.pump = "on" then 1 else 0,
        PUMP_TURBO :=
          if equipmentState.pump = "on" ∧ equipmentState.pumpSpeed = "high" then 1 else 0,
        RELAY_INFLOW := if equipmentState.inflowValve = "spa" then 1 else 0,
        RELAY_OUTFLOW := if equipmentState.outflowValve = "spa" then 1 else 0,
        HEATER_SPA := if equipmentState.heater = "on" then 1 else 0 } }

/-- Embeds `getValvePercentForMode` (lines 348-359): 100 when both valves of the
mode route to spa, else 0 (also 0 for an unknown key). -/
def getValvePercentForMode (modes : List ModeConfig) (modeKey : String) : ℚ :=
  match getMode modes modeKey with
  | none => 0
  | some mode =>
    if mode.equipment.inflowValve = "spa" ∧ mode.equipment.outflowValve = "spa" then 100
    else 0

/-- The whole orchestrator-visible process state. -/
structure SysState where
  status : Status := {}
  valve : Valve := {}
  ctrl : Controller := {}
deriving DecidableEq, Repr

/-- Result of one `switchToMode(modeKey)` background run: the final process
state, the states observable by concurrent readers (the state held during the
`await sleep(VALVE_WAIT_MS)` suspension, if reached, followed by the final
state; for a run that never suspends, just the final state), and the
equipment states successfully applied to the relay driver, in call order. -/
structure RunResult where
  final : SysState
  observed : List SysState
  applied : List EquipmentState
deriving DecidableEq, Repr

/-- Lines 368-369: `status.busy = true; status.target = modeKey` — both set
in one synchronous stretch. -/
def beginSwitch (modeKey : String) (s : SysState) : SysState :=
  { s with status := { s.status with busy := true, target := some modeKey } }

/-- Lines 376-383: start a new timeline iff the destination differs from the
current interpolated position. -/
def startTimeline (currentValvePct targetValvePct t0 : ℚ) (s : SysState) : SysState :=
  if currentValvePct ≠ targetValvePct then
    { s with valve := { s.valve with
        «from» := currentValvePct, «to» := targetValvePct,
        startMs := t0, durationMs := VALVE_WAIT_MS, moving := true } }
  else s

/-- Lines 386-390: the equipment state applied before the travel wait; for
`modeKey === "spa"` with the valve still short of its destination, pump speed
is forced to `"low"` during travel. -/
def preWaitEquipment (targetMode : ModeConfig) (modeKey : String)
    (currentValvePct targetValvePct : ℚ) : EquipmentState :=
  if modeKey = "spa" ∧ targetValvePct > currentValvePct then
    { targetMode.equipment with pumpSpeed := "low" }
  else
    targetMode.equipment

/-- Lines 399-400: finalize the timeline after the wait. -/
def finalizeValve (targetValvePct : ℚ) (s : SysState) : SysState :=
  { s with valve := { s.valve with percent := targetValvePct, moving := false } }

/-- Line 408: `status.mode = modeKey` on success. -/
def markMode (modeKey : String) (s : SysState) : SysState :=
  { s with status := { s.status with mode := modeKey } }

/-- Lines 423-426 (`finally`): clear `busy` and `target`. -/
def clearBusyTarget (s : SysState) : SysState :=
  { s with status := { s.status with busy := false, target := none } }

/-- Lines 411-422 (`catch`): record `lastError`; when a `service` mode exists
and the failed target is not itself `service`, apply the service equipment,
set `status.mode = "service"`, and reset the timeline to `percent = 0`,
`moving = false`.  Returns the new state and the equipment applied by the
recovery (the recovery apply is modelled as succeeding). -/
def recoverFromError (modes : List ModeConfig) (modeKey err : String)
    (s : SysState) : SysState × List EquipmentState :=
  let s1 : SysState := { s with status := { s.status with lastError := some err } }
  match getMode modes "service" with
  | some serviceMode =>
    if modeKey ≠ "service" then
      ({ s1 with
          ctrl := applyEquipmentState serviceMode.equipment s1.ctrl,
          status := { s1.status with mode := "service" },
          valve := { s1.valve with percent := 0, moving := false } },
        [serviceMode.equipment])
    else (s1, [])
  | none => (s1, [])

/-- Embeds `switchToMode(modeKey)` (lines 361-427), as a function of the catalog,
the requested key, the entry time `t0`, the driver fault oracle, and the
process state.  An unknown key throws before the `try`, leaving the state
untouched.  The post-wait timestamp plays no role: no further `Date.now()`
read occurs after the sleep. -/
def switchToMode (modes : List ModeConfig) (modeKey : String) (t0 : ℚ)
    (driver : Nat → Option String) (s0 : SysState) : RunResult :=
  match getMode modes modeKey with
  | none => { final := s0, observed := [s0], applied := [] }
  | some targetMode =>
    let s1 := beginSwitch modeKey s0
    let currentValvePct := currentValvePercent s1.valve t0
    let targetValvePct := getValvePercentForMode modes modeKey
    let s2 := startTimeline currentValvePct targetValvePct t0 s1
    let equipmentState := preWaitEquipment targetMode modeKey currentValvePct targetValvePct
    match driver 0 with
    | some err =>
      let r := recoverFromError modes modeKey err s2
      { final := clearBusyTarget r.1, observed := [clearBusyTarget r.1], applied := r.2 }
    | none =>
      let s3 : SysState := { s2 with ctrl := applyEquipmentState equipmentState s2.ctrl }
      if s3.valve.moving then
        let s4 := finalizeValve targetValvePct s3
        if modeKey = "spa" then
          match driver 1 with
          | some err =>
            let r := recoverFromError modes modeKey err s4
            { final := clearBusyTarget r.1, observed := [s3, clearBusyTarget r.1],
              applied := equipmentState :: r.2 }
          | none =>
            let s5 : SysState := { s4 with ctrl := applyEquipmentState targetMode.equipment s4.ctrl }
            let sF := clearBusyTarget (markMode modeKey s5)
            { final := sF, observed := [s3, sF],
              applied := [equipmentState, targetMode.equipment] }
        else
          let sF := clearBusyTarget (markMode modeKey s4)
          { final := sF, observed := [s3, sF], applied := [equipmentState] }
      else
        let sF := clearBusyTarget (markMode modeKey s3)
        { final := sF, observed := [sF], applied := [equipmentState] }

/-- Embeds `statusPayload()` (lines 312-345), minus the module-level simulator
flags.  `serverNow` and the interpolation share one tick `now`. -/
structure StatusPayload where
  ok : Bool
  mode : String
  busy : Bool
  target : Option String
  equipment : EquipmentState
  gpio : GpioStates
  serverNow : ℚ
  valveWaitMs : ℚ
  valvePercent : ℚ
  valveMoving : Bool
  valveFrom : ℚ
  valveTo : ℚ
  valveStartMs : ℚ
  valveDurationMs : ℚ
  modesList : List ModeConfig
  lastError : Option String
deriving DecidableEq, Repr

/-- Build the status payload from the process state at tick `now`. -/
def statusPayload (modes : List ModeConfig) (now : ℚ) (s : SysState) : StatusPayload :=
  { ok := true,
    mode := s.status.mode,
    busy := s.status.busy,
    target := s.status.target,
    equipment := s.ctrl.currentState,
    gpio := s.ctrl.gpioStates,
    serverNow := now,
    valveWaitMs := VALVE_WAIT_MS,
    valvePercent := currentValvePercent s.valve now,
    valveMoving := s.valve.moving,
    valveFrom := s.valve.«from»,
    valveTo := s.valve.«to»,
    valveStartMs := s.valve.startMs,
    valveDurationMs := s.valve.durationMs,
    modesList := getSortedModes modes,
    lastError := s.status.lastError }

/-- The possible responses of the `GET /mode/:modeKey` handler. -/
inductive ModeResponse where
  /-- Response 404 `{ ok: false, message: "Unknown mode: …" }`. -/
  | notFound (message : String)
  /-- Response 200 `res.json(statusPayload())`. -/
  | payload (p : StatusPayload)
  /-- Response 409 `{ ok: false, busy: true, message: "Busy with another operation" }`. -/
  | busyConflict
deriving DecidableEq, Repr

/-- The `GET /mode/:modeKey` handler (lines 433-459): the response, the
process state after the synchronous work of the handler, and whether a background
transition was started.  On the start path the response is built from the
first observable state of the run (the JS synchronous prefix up to the first
`await`, or the whole run when it never suspends), while the recorded state
is the eventual final state of the run. -/
def handleModeRequest (modes : List ModeConfig) (modeKey : String) (now : ℚ)
    (driver : Nat → Option String) (s : SysState) : ModeResponse × SysState × Bool :=
  if ¬ hasMode modes modeKey then
    (.notFound ("Unknown mode: " ++ modeKey), s, false)
  else if ¬ s.status.busy ∧ s.status.mode = modeKey then
    (.payload (statusPayload modes now s), s, false)
  else if s.status.busy ∧ s.status.target = some modeKey then
    (.payload (statusPayload modes now s), s, false)
  else if s.status.busy then
    (.busyConflict, s, false)
  else
    let r := switchToMode modes modeKey now driver s
    (.payload (statusPayload modes now (r.observed.headD r.final)), r.final, true)

/-! Concrete fixtures mirroring the scenario catalog of the spec: `auto`
(pool/pool), `spa` (spa/spa, pump on/high, heater on), `service` (all off),
plus a hypothetical second spa-routed mode used to probe the `"spa"` key
special-casing. -/

def demoAutoEquip : EquipmentState :=
  { pump := "on", pumpSpeed := "low", inflowValve := "pool", outflowValve := "pool", heater := "off" }

def demoSpaEquip : EquipmentState :=
  { pump := "on", pumpSpeed := "high", inflowValve := "spa", outflowValve := "spa", heater := "on" }

def demoAuto : ModeConfig := { key := "auto", name := "Auto", order := 1, equipment := demoAutoEquip }

def demoSpa : ModeConfig := { key := "spa", name := "Spa", order := 2, equipment := demoSpaEquip }

def demoSpa2 : ModeConfig := { key := "spa2", name := "Spa 2", order := 3, equipment := demoSpaEquip }

def demoService : ModeConfig := { key := "service", name := "Service", order := 99, equipment := {} }

def demoModes : List ModeConfig := [demoAuto, demoSpa, demoService]

def demoModes2 : List ModeConfig := [demoAuto, demoSpa, demoSpa2, demoService]

def noFault : Nat → Option String := fun _ => none

def faultAt0 : Nat → Option String := fun n => if n = 0 then some "Error: boom" else none

def faultAt1 : Nat → Option String := fun n => if n = 1 then some "Error: boom" else none

def idleAuto : SysState := {}

def idleAuto50 : SysState := { valve := { percent := 50 } }

def busySpa : SysState :=
  { status := { mode := "auto", target := some "spa", busy := true },
    valve := { moving := true, «from» := 0, «to» := 100, startMs := 0 } }

/-! ## Helper lemmas about the interpolation clamp -/

/-- The clamped progress lies in `[0, 1]`. -/
theorem clampProgress_mem (x : ℚ) : 0 ≤ max 0 (min 1 x) ∧ max 0 (min 1 x) ≤ 1 :=
  ⟨le_max_left 0 _, max_le (by norm_num) (min_le_left 1 x)⟩

/-- The clamp is monotone. -/
theorem clampProgress_mono {x y : ℚ} (h : x ≤ y) :
    max 0 (min 1 x) ≤ max 0 (min 1 y) :=
  max_le_max le_rfl (min_le_min le_rfl h)

/-- C2: `currentValvePercent` is a pure function of the timeline and the
query time: with `moving = false` it returns `percent` unchanged; with
`moving = true` it returns `from + (to − from) · clamp((now − startMs) /
durationMs, 0, 1)`; and for a positive duration the result never passes
`to`, whatever the query time (in particular after `startMs + durationMs`
has elapsed). -/
theorem claim_C2 (v : Valve) (now : ℚ) :
    (v.moving = false → currentValvePercent v now = v.percent) ∧
    (v.moving = true →
      currentValvePercent v now =
        v.«from» + (v.«to» - v.«from») *
          (max 0 (min 1 ((now - v.startMs) / v.durationMs)))) ∧
    (v.moving = true → 0 < v.durationMs →
      (v.«from» ≤ v.«to» → currentValvePercent v now ≤ v.«to») ∧
      (v.«to» ≤ v.«from» → v.«to» ≤ currentValvePercent v now)) := by
  refine ⟨fun hm => by simp [currentValvePercent, hm],
          fun hm => by simp [currentValvePercent, hm],
          fun hm _hd => ?_⟩
  obtain ⟨h0, h1⟩ := clampProgress_mem ((now - v.startMs) / v.durationMs)
  constructor <;> intro hle <;> simp only [currentValvePercent, hm, if_true] <;> nlinarith

/-- Witness for C2 at a concrete moving timeline (0 → 100 over 30 s) queried
45 s after the start: the read stays clamped at `to = 100`. -/
theorem claim_C2_witness :
    busySpa.valve.moving = true ∧ (0 : ℚ) < busySpa.valve.durationMs ∧
    busySpa.valve.«from» ≤ busySpa.valve.«to» ∧
    currentValvePercent busySpa.valve 45000 ≤ busySpa.valve.«to» :=
  ⟨rfl, by norm_num [busySpa, VALVE_WAIT_MS],
   by norm_num [busySpa],
   ((claim_C2 busySpa.valve 45000).2.2 rfl (by norm_num [busySpa, VALVE_WAIT_MS])).1
     (by norm_num [busySpa])⟩

/-- C3: on a moving timeline with positive duration, `currentValvePercent`
is non-decreasing in the query time when `to > from` and non-increasing when
`to < from`, and it returns exactly `to` for every query time at or past
`startMs + durationMs`. -/
theorem claim_C3 (v : Valve) (now1 now2 : ℚ) (hmov : v.moving = true)
    (hdur : 0 < v.durationMs) :
    (now1 ≤ now2 →
      (v.«from» < v.«to» → currentValvePercent v now1 ≤ currentValvePercent v now2) ∧
      (v.«to» < v.«from» → currentValvePercent v now2 ≤ currentValvePercent v now1)) ∧
    (v.startMs + v.durationMs ≤ now1 → currentValvePercent v now1 = v.«to») := by
  constructor
  · intro hnow
    have ht : max 0 (min 1 ((now1 - v.startMs) / v.durationMs)) ≤
        max 0 (min 1 ((now2 - v.startMs) / v.durationMs)) :=
      clampProgress_mono ((div_le_div_iff_of_pos_right hdur).mpr (by linarith))
    constructor <;> intro hft <;> simp only [currentValvePercent, hmov, if_true] <;> nlinarith
  · intro hend
    have h1 : (1 : ℚ) ≤ (now1 - v.startMs) / v.durationMs :=
      (one_le_div hdur).mpr (by linarith)
    simp only [currentValvePercent, hmov, if_true, min_eq_left h1,
      max_eq_right (by norm_num : (0 : ℚ) ≤ 1)]
    ring

/-- Witness for C3: on the concrete 0 → 100 segment the reads at 10 s and
20 s are ordered, and a read at 30 s returns exactly 100. -/
theorem claim_C3_witness :
    (currentValvePercent busySpa.valve 10000 ≤ currentValvePercent busySpa.valve 20000) ∧
    currentValvePercent busySpa.valve 30000 = busySpa.valve.«to» :=
  ⟨((claim_C3 busySpa.valve 10000 20000 rfl (by norm_num [busySpa, VALVE_WAIT_MS])).1
      (by norm_num)).1 (by norm_num [busySpa]),
   (claim_C3 busySpa.valve 30000 0 rfl (by norm_num [busySpa, VALVE_WAIT_MS])).2
      (by norm_num [busySpa, VALVE_WAIT_MS])⟩

/-- C4: for every key present in the catalog, the computed target valve
percent is 100 exactly when the mode routes both valves to spa, and 0 in
every other case. -/
theorem claim_C4 (modes : List ModeConfig) (modeKey : String) (m : ModeConfig)
    (h : getMode modes modeKey = some m) :
    getValvePercentForMode modes modeKey =
      (if m.equipment.inflowValve = "spa" ∧ m.equipment.outflowValve = "spa"
        then (100 : ℚ) else 0) := by
  simp [getValvePercentForMode, h]

/-- Witness for C4: in the demo catalog, `spa` targets 100 and `auto`
targets 0. -/
theorem claim_C4_witness :
    getValvePercentForMode demoModes "spa" =
      (if demoSpa.equipment.inflowValve = "spa" ∧ demoSpa.equipment.outflowValve = "spa"
        then (100 : ℚ) else 0) :=
  claim_C4 demoModes "spa" demoSpa (by decide)

/-- C10: after every `applyEquipmentState`, the `PUMP_TURBO` pin is 1
exactly when `pump = "on"` and `pumpSpeed = "high"`; in particular the
high-speed relay is never energized while the main pump relay is
de-energized (including for `pump = "off"` with `pumpSpeed = "high"`
retained). -/
theorem claim_C10 (es : EquipmentState) (c : Controller) :
    ((applyEquipmentState es c).gpioStates.PUMP_TURBO = 1 ↔
      es.pump = "on" ∧ es.pumpSpeed = "high") ∧
    ((applyEquipmentState es c).gpioStates.PUMP_TURBO = 1 →
      (applyEquipmentState es c).gpioStates.PUMP = 1) := by
  simp only [applyEquipmentState]
  constructor
  · split <;> simp_all
  · intro h
    split
    · rfl
    · rename_i hp
      split at h
      · rename_i hph
        exact absurd hph.1 hp
      · exact absurd h (by norm_num)

/-- C5: a switch request for a known mode arriving while an operation is in
flight with a different target is answered with the distinguishable 409
conflict response, the process state (status and valve timeline alike) is
returned unchanged, and no background work starts. -/
theorem claim_C5 (modes : List ModeConfig) (modeKey : String) (now : ℚ)
    (driver : Nat → Option String) (s : SysState)
    (hknown : hasMode modes modeKey = true)
    (hbusy : s.status.busy = true)
    (htgt : s.status.target ≠ some modeKey) :
    handleModeRequest modes modeKey now driver s = (.busyConflict, s, false) := by
  simp [handleModeRequest, hknown, hbusy, htgt]

/-- Witness for C5: a request for `auto` while busy transitioning to `spa`
is rejected with the conflict response and an untouched state. -/
theorem claim_C5_witness :
    handleModeRequest demoModes "auto" 0 noFault busySpa =
      (.busyConflict, busySpa, false) :=
  claim_C5 demoModes "auto" 0 noFault busySpa (by decide) (by decide) (by decide)

/-- C7: a switch request whose key equals the in-flight target is an
idempotent no-op: it answers with the current status payload, leaves every
field of the process state (including `target`) unchanged, and starts no
second transition. -/
theorem claim_C7 (modes : List ModeConfig) (modeKey : String) (now : ℚ)
    (driver : Nat → Option String) (s : SysState)
    (hknown : hasMode modes modeKey = true)
    (hbusy : s.status.busy = true)
    (htgt : s.status.target = some modeKey) :
    handleModeRequest modes modeKey now driver s =
      (.payload (statusPayload modes now s), s, false) := by
  simp [handleModeRequest, hknown, hbusy, htgt]

/-- Witness for C7: a retry of the in-flight `spa` request returns the
current payload and changes nothing. -/
theorem claim_C7_witness :
    handleModeRequest demoModes "spa" 0 noFault busySpa =
      (.payload (statusPayload demoModes 0 busySpa), busySpa, false) :=
  claim_C7 demoModes "spa" 0 noFault busySpa (by decide) (by decide) (by decide)

/-- The helper `startTimeline` only touches the valve record. -/
theorem startTimeline_status (a b t : ℚ) (s : SysState) :
    (startTimeline a b t s).status = s.status := by
  unfold startTimeline
  split <;> rfl

/-- Every state a `switchToMode` run makes observable has either the
untouched initial status (unknown key), the in-flight status (`busy` and
`target` set together), or a fully cleared `busy`/`target` pair. -/
theorem switchToMode_observed_status (modes : List ModeConfig) (modeKey : String)
    (t0 : ℚ) (driver : Nat → Option String) (s0 : SysState) :
    ∀ s ∈ (switchToMode modes modeKey t0 driver s0).observed,
      s.status = s0.status ∨
      s.status = { s0.status with busy := true, target := some modeKey } ∨
      (s.status.busy = false ∧ s.status.target = none) := by
  intro s hs
  cases hm : getMode modes modeKey with
  | none =>
    simp only [switchToMode, hm, List.mem_singleton] at hs
    subst hs
    exact Or.inl rfl
  | some targetMode =>
    cases hd0 : driver 0 with
    | some err =>
      simp only [switchToMode, hm, hd0, List.mem_singleton] at hs
      subst hs
      exact Or.inr (Or.inr ⟨rfl, rfl⟩)
    | none =>
      cases hd1 : driver 1 with
      | some err =>
        simp only [switchToMode, hm, hd0, hd1] at hs
        split at hs
        · split at hs
          · simp only [List.mem_cons, List.mem_singleton] at hs
            rcases hs with hs | hs | hs
            · subst hs
              refine Or.inr (Or.inl ?_)
              unfold startTimeline beginSwitch
              split <;> rfl
            · subst hs
              exact Or.inr (Or.inr ⟨rfl, rfl⟩)
            · cases hs
          · simp only [List.mem_cons, List.mem_singleton] at hs
            rcases hs with hs | hs | hs
            · subst hs
              refine Or.inr (Or.inl ?_)
              unfold startTimeline beginSwitch
              split <;> rfl
            · subst hs
              exact Or.inr (Or.inr ⟨rfl, rfl⟩)
            · cases hs
        · simp only [List.mem_singleton] at hs
          subst hs
          exact Or.inr (Or.inr ⟨rfl, rfl⟩)
      | none =>
        simp only [switchToMode, hm, hd0, hd1] at hs
        split at hs
        · split at hs
          · simp only [List.mem_cons, List.mem_singleton] at hs
            rcases hs with hs | hs | hs
            · subst hs
              refine Or.inr (Or.inl ?_)
              unfold startTimeline beginSwitch
              split <;> rfl
            · subst hs
              exact Or.inr (Or.inr ⟨rfl, rfl⟩)
            · cases hs
          · simp only [List.mem_cons, List.mem_singleton] at hs
            rcases hs with hs | hs | hs
            · subst hs
              refine Or.inr (Or.inl ?_)
              unfold startTimeline beginSwitch
              split <;> rfl
            · subst hs
              exact Or.inr (Or.inr ⟨rfl, rfl⟩)
            · cases hs
        · simp only [List.mem_singleton] at hs
          subst hs
          exact Or.inr (Or.inr ⟨rfl, rfl⟩)

/-- On a known key, the final state of a run always has `busy` and `target`
cleared (the `finally` block). -/
theorem switchToMode_final_cleared (modes : List ModeConfig) (modeKey : String)
    (t0 : ℚ) (driver : Nat → Option String) (s0 : SysState) (m : ModeConfig)
    (hm : getMode modes modeKey = some m) :
    (switchToMode modes modeKey t0 driver s0).final.status.busy = false ∧
    (switchToMode modes modeKey t0 driver s0).final.status.target = none := by
  cases hd0 : driver 0 with
  | some err =>
    simp only [switchToMode, hm, hd0]
    exact ⟨rfl, rfl⟩
  | none =>
    cases hd1 : driver 1 with
    | some err =>
      simp only [switchToMode, hm, hd0, hd1]
      split
      · split
        · exact ⟨rfl, rfl⟩
        · exact ⟨rfl, rfl⟩
      · exact ⟨rfl, rfl⟩
    | none =>
      simp only [switchToMode, hm, hd0, hd1]
      split
      · split
        · exact ⟨rfl, rfl⟩
        · exact ⟨rfl, rfl⟩
      · exact ⟨rfl, rfl⟩

/-- C8: provided the initial state satisfies it, the invariant
`busy = true ↔ target ≠ none` holds at every state a `switchToMode` run
makes observable (the state held across the travel wait and the final
state): the transition sets `busy` and `target` together at its start and —
on success and on failure alike — clears both at its end; in particular the
final state of a run on a known key has `busy = false` and `target = none`. -/
theorem claim_C8 (modes : List ModeConfig) (modeKey : String) (t0 : ℚ)
    (driver : Nat → Option String) (s0 : SysState)
    (h0 : s0.status.busy = true ↔ s0.status.target ≠ none) :
    (∀ s ∈ (switchToMode modes modeKey t0 driver s0).observed,
      (s.status.busy = true ↔ s.status.target ≠ none)) ∧
    (hasMode modes modeKey = true →
      (switchToMode modes modeKey t0 driver s0).final.status.busy = false ∧
      (switchToMode modes modeKey t0 driver s0).final.status.target = none) := by
  constructor
  · intro s hs
    rcases switchToMode_observed_status modes modeKey t0 driver s0 s hs with h | h | h
    · rw [h]; exact h0
    · rw [h]; simp
    · rw [h.1, h.2]; simp
  · intro hk
    rcases hmm : getMode modes modeKey with _ | m
    · rw [hasMode, hmm] at hk
      cases hk
    · exact switchToMode_final_cleared modes modeKey t0 driver s0 m hmm

/-- Witness for C8 on a concrete successful run from the idle state: the
run ends with `busy` and `target` cleared. -/
theorem claim_C8_witness :
    (switchToMode demoModes "spa" 0 noFault idleAuto).final.status.busy = false ∧
    (switchToMode demoModes "spa" 0 noFault idleAuto).final.status.target = none :=
  (claim_C8 demoModes "spa" 0 noFault idleAuto (by decide)).2 (by decide)

/-- The helper `startTimeline` does not change the controller part. -/
theorem startTimeline_ctrl (a b t : ℚ) (s : SysState) :
    (startTimeline a b t s).ctrl = s.ctrl := by
  unfold startTimeline
  split <;> rfl

/-- The recovery path always stores the raised error message in
`lastError`, whatever the catalog holds. -/
theorem recoverFromError_fst_lastError (modes : List ModeConfig) (k e : String)
    (s : SysState) : ((recoverFromError modes k e s).1).status.lastError = some e := by
  cases hms : getMode modes "service" with
  | none => simp [recoverFromError, hms]
  | some sm =>
    by_cases hk : k ≠ "service"
    · simp [recoverFromError, hms, hk]
    · simp [recoverFromError, hms, hk]

/-- C1 counterexample: a driver fault injected at the start of a `spa`
transition from a valve resting at 50 %.  At the moment of failure the
interpolated percent is 50, but the recovery path of `switchToMode` resets
`valve.percent` to 0 (while it does record the error, apply service
equipment, and set `mode = "service"`), contradicting the claim that the
timeline is left at its last interpolated percent. -/
theorem claim_C1_counterexample :
    currentValvePercent (startTimeline 50 100 1000 (beginSwitch "spa" idleAuto50)).valve 1000 = 50 ∧
    (switchToMode demoModes "spa" 1000 faultAt0 idleAuto50).final.status.mode = "service" ∧
    (switchToMode demoModes "spa" 1000 faultAt0 idleAuto50).final.status.lastError =
      some "Error: boom" ∧
    (switchToMode demoModes "spa" 1000 faultAt0 idleAuto50).final.valve.moving = false ∧
    (switchToMode demoModes "spa" 1000 faultAt0 idleAuto50).final.valve.percent = 0 ∧
    (50 : ℚ) ≠ 0 := by
  simp [switchToMode, beginSwitch, startTimeline, preWaitEquipment, finalizeValve,
    markMode, clearBusyTarget, recoverFromError, currentValvePercent, getValvePercentForMode,
    getMode, applyEquipmentState, VALVE_WAIT_MS, demoModes, demoAuto, demoSpa, demoService,
    demoAutoEquip, demoSpaEquip, idleAuto50, faultAt0, List.find?, min_def, max_def]

/-- C1 (amended): for every failed background transition with a `service`
mode in the catalog and a requested mode other than `service`, the recovery
path records the error in `lastError`, applies the equipment of the service
mode, sets `status.mode = "service"`, and resets the valve timeline to
`percent = 0` with `moving = false` — not the interpolated percent at the
moment of failure, nor the intended destination — and `busy`/`target` are
cleared as always.  Both reachable fault sites are covered: clause 1 is a
fault in the pre-wait driver call (reachable for any mode); clause 2 is a
fault in the post-wait driver call, reachable exactly for key `"spa"` with
a valve that travels (or was already travelling). -/
theorem claim_C1_amended (modes : List ModeConfig) (modeKey err : String) (t0 : ℚ)
    (driver : Nat → Option String) (s0 : SysState) (m sm : ModeConfig)
    (hm : getMode modes modeKey = some m)
    (hs : getMode modes "service" = some sm)
    (hk : modeKey ≠ "service") :
    (driver 0 = some err →
      (switchToMode modes modeKey t0 driver s0).final.status.lastError = some err ∧
      (switchToMode modes modeKey t0 driver s0).final.status.mode = "service" ∧
      (switchToMode modes modeKey t0 driver s0).final.valve.percent = 0 ∧
      (switchToMode modes modeKey t0 driver s0).final.valve.moving = false ∧
      (switchToMode modes modeKey t0 driver s0).final.status.busy = false ∧
      (switchToMode modes modeKey t0 driver s0).final.status.target = none ∧
      (switchToMode modes modeKey t0 driver s0).applied = [sm.equipment] ∧
      (switchToMode modes modeKey t0 driver s0).final.ctrl =
        applyEquipmentState sm.equipment s0.ctrl) ∧
    (modeKey = "spa" → driver 0 = none → driver 1 = some err →
      (currentValvePercent s0.valve t0 ≠ getValvePercentForMode modes modeKey ∨
        s0.valve.moving = true) →
      (switchToMode modes modeKey t0 driver s0).final.status.lastError = some err ∧
      (switchToMode modes modeKey t0 driver s0).final.status.mode = "service" ∧
      (switchToMode modes modeKey t0 driver s0).final.valve.percent = 0 ∧
      (switchToMode modes modeKey t0 driver s0).final.valve.moving = false ∧
      (switchToMode modes modeKey t0 driver s0).final.status.busy = false ∧
      (switchToMode modes modeKey t0 driver s0).final.status.target = none ∧
      (switchToMode modes modeKey t0 driver s0).applied =
        [preWaitEquipment m modeKey (currentValvePercent s0.valve t0)
          (getValvePercentForMode modes modeKey), sm.equipment] ∧
      (switchToMode modes modeKey t0 driver s0).final.ctrl =
        applyEquipmentState sm.equipment
          (applyEquipmentState
            (preWaitEquipment m modeKey (currentValvePercent s0.valve t0)
              (getValvePercentForMode modes modeKey)) s0.ctrl)) := by
  constructor
  · intro hd
    simp only [switchToMode, hm, hd]
    simp only [recoverFromError, hs]
    rw [if_pos hk]
    refine ⟨rfl, rfl, rfl, rfl, rfl, rfl, rfl, ?_⟩
    simp [clearBusyTarget, startTimeline_ctrl, beginSwitch]
  · intro hspa hd0 hd1 hmove
    subst hspa
    have hmoving : (startTimeline (currentValvePercent (beginSwitch "spa" s0).valve t0)
        (getValvePercentForMode modes "spa") t0 (beginSwitch "spa" s0)).valve.moving = true := by
      unfold startTimeline
      split
      · rfl
      · rename_i hcond
        rcases hmove with h | h
        · exact absurd h hcond
        · exact h
    simp only [switchToMode, hm, hd0, hd1, hmoving, if_true]
    simp only [recoverFromError, hs]
    rw [if_pos hk]
    refine ⟨rfl, rfl, rfl, rfl, rfl, rfl, rfl, ?_⟩
    simp [clearBusyTarget, finalizeValve, startTimeline_ctrl, beginSwitch]

/-- Witness for C1 (amended), exercising both fault sites: a pre-wait fault
on a `spa` transition from a valve resting at 50 %, and a post-wait fault on
a `spa` transition from the idle pool state. -/
theorem claim_C1_witness :
    ((switchToMode demoModes "spa" 1000 faultAt0 idleAuto50).final.status.lastError =
      some "Error: boom" ∧
    (switchToMode demoModes "spa" 1000 faultAt0 idleAuto50).final.status.mode = "service" ∧
    (switchToMode demoModes "spa" 1000 faultAt0 idleAuto50).final.valve.percent = 0 ∧
    (switchToMode demoModes "spa" 1000 faultAt0 idleAuto50).final.valve.moving = false ∧
    (switchToMode demoModes "spa" 1000 faultAt0 idleAuto50).final.status.busy = false ∧
    (switchToMode demoModes "spa" 1000 faultAt0 idleAuto50).final.status.target = none ∧
    (switchToMode demoModes "spa" 1000 faultAt0 idleAuto50).applied =
      [demoService.equipment] ∧
    (switchToMode demoModes "spa" 1000 faultAt0 idleAuto50).final.ctrl =
      applyEquipmentState demoService.equipment idleAuto50.ctrl) ∧
    ((switchToMode demoModes "spa" 0 faultAt1 idleAuto).final.status.lastError =
      some "Error: boom" ∧
    (switchToMode demoModes "spa" 0 faultAt1 idleAuto).final.status.mode = "service" ∧
    (switchToMode demoModes "spa" 0 faultAt1 idleAuto).final.valve.percent = 0 ∧
    (switchToMode demoModes "spa" 0 faultAt1 idleAuto).final.valve.moving = false ∧
    (switchToMode demoModes "spa" 0 faultAt1 idleAuto).final.status.busy = false ∧
    (switchToMode demoModes "spa" 0 faultAt1 idleAuto).final.status.target = none ∧
    (switchToMode demoModes "spa" 0 faultAt1 idleAuto).applied =
      [preWaitEquipment demoSpa "spa" (currentValvePercent idleAuto.valve 0)
        (getValvePercentForMode demoModes "spa"), demoService.equipment] ∧
    (switchToMode demoModes "spa" 0 faultAt1 idleAuto).final.ctrl =
      applyEquipmentState demoService.equipment
        (applyEquipmentState
          (preWaitEquipment demoSpa "spa" (currentValvePercent idleAuto.valve 0)
            (getValvePercentForMode demoModes "spa")) idleAuto.ctrl)) :=
  ⟨(claim_C1_amended demoModes "spa" "Error: boom" 1000 faultAt0 idleAuto50 demoSpa
      demoService (by decide) (by decide) (by decide)).1 rfl,
   (claim_C1_amended demoModes "spa" "Error: boom" 0 faultAt1 idleAuto demoSpa
      demoService (by decide) (by decide) (by decide)).2 rfl rfl rfl
    (Or.inl (by simp [idleAuto, currentValvePercent, getValvePercentForMode, getMode,
      demoModes, demoAuto, demoSpa, demoSpaEquip, List.find?]))⟩

/-- C6 counterexample: a catalog with a second spa-routed mode under the key
`spa2` (both valves to spa, configured pump speed `high`).  Switching into
it from 0 % is a transition that increases flow through the spa path
(target 100 > current 0), yet the only equipment state ever applied carries
`pumpSpeed = "high"` — the low-speed hold is keyed on the literal mode key
`"spa"`, and no second post-wait application happens either. -/
theorem claim_C6_counterexample :
    getValvePercentForMode demoModes2 "spa2" = 100 ∧
    currentValvePercent idleAuto.valve 0 = 0 ∧
    demoSpa2.equipment.inflowValve = "spa" ∧
    demoSpa2.equipment.outflowValve = "spa" ∧
    (switchToMode demoModes2 "spa2" 0 noFault idleAuto).applied = [demoSpaEquip] ∧
    demoSpaEquip.pumpSpeed = "high" := by
  simp [switchToMode, beginSwitch, startTimeline, preWaitEquipment, finalizeValve,
    markMode, clearBusyTarget, recoverFromError, currentValvePercent, getValvePercentForMode,
    getMode, applyEquipmentState, VALVE_WAIT_MS, demoModes2, demoAuto, demoSpa, demoSpa2,
    demoService, demoAutoEquip, demoSpaEquip, idleAuto, noFault, List.find?, min_def, max_def]

/-- C6 (amended): the low-speed hold is specific to the mode whose key is
`"spa"`.  Clause 1: for a fault-free transition to `spa` whose target valve
percent exceeds the current interpolated percent, the driver first receives
the target equipment with `pumpSpeed` forced to `"low"` (this is the state
in force during the travel wait), and only after the wait receives the full
configured equipment state.  Clause 2: for every other mode key — even one
whose valves both route to spa — the configured equipment state (including
its `pumpSpeed`) is applied exactly once, immediately before any wait, and
nothing further is applied after the wait. -/
theorem claim_C6_amended (modes : List ModeConfig) (modeKey : String) (t0 : ℚ)
    (driver : Nat → Option String) (s0 : SysState) (m : ModeConfig)
    (hm : getMode modes modeKey = some m)
    (hd0 : driver 0 = none) (hd1 : driver 1 = none) :
    (modeKey = "spa" →
      currentValvePercent s0.valve t0 < getValvePercentForMode modes modeKey →
      (switchToMode modes modeKey t0 driver s0).applied =
        [{ m.equipment with pumpSpeed := "low" }, m.equipment] ∧
      ((switchToMode modes modeKey t0 driver s0).observed.headD s0).ctrl.currentState =
        { m.equipment with pumpSpeed := "low" }) ∧
    (modeKey ≠ "spa" →
      (switchToMode modes modeKey t0 driver s0).applied = [m.equipment] ∧
      ((switchToMode modes modeKey t0 driver s0).observed.headD s0).ctrl.currentState =
        m.equipment) := by
  constructor
  · intro hspa hgt
    subst hspa
    have hne : currentValvePercent s0.valve t0 ≠ getValvePercentForMode modes "spa" :=
      ne_of_lt hgt
    simp only [switchToMode, hm, hd0, hd1, beginSwitch, startTimeline, preWaitEquipment,
      applyEquipmentState]
    simp [hne, hgt, finalizeValve, markMode, clearBusyTarget]
  · intro hnspa
    simp only [switchToMode, hm, hd0, hd1]
    split
    · constructor
      · simp [preWaitEquipment, hnspa]
      · simp [preWaitEquipment, hnspa, applyEquipmentState]
    · constructor
      · simp [preWaitEquipment, hnspa]
      · simp [preWaitEquipment, hnspa, applyEquipmentState, clearBusyTarget, markMode]

/-- Witness for C6 (amended), exercising both clauses: the `spa` mode of the
demo catalog from the idle pool state, and the spa-routed `spa2` mode of the
extended catalog from the same state. -/
theorem claim_C6_witness :
    ((switchToMode demoModes "spa" 0 noFault idleAuto).applied =
      [{ demoSpa.equipment with pumpSpeed := "low" }, demoSpa.equipment] ∧
    ((switchToMode demoModes "spa" 0 noFault idleAuto).observed.headD idleAuto).ctrl.currentState =
      { demoSpa.equipment with pumpSpeed := "low" }) ∧
    ((switchToMode demoModes2 "spa2" 0 noFault idleAuto).applied = [demoSpa2.equipment] ∧
    ((switchToMode demoModes2 "spa2" 0 noFault idleAuto).observed.headD idleAuto).ctrl.currentState =
      demoSpa2.equipment) :=
  ⟨(claim_C6_amended demoModes "spa" 0 noFault idleAuto demoSpa (by decide) rfl rfl).1 rfl
    (by simp [idleAuto, currentValvePercent, getValvePercentForMode, getMode, demoModes,
      demoAuto, demoSpa, demoSpaEquip, List.find?]),
   (claim_C6_amended demoModes2 "spa2" 0 noFault idleAuto demoSpa2 (by decide) rfl rfl).2
    (by decide)⟩

/-- C9 counterexample: after a faulted `spa` transition records
`lastError = "Error: boom"`, a subsequent fault-free switch to `auto`
completes (`mode = "auto"`), yet the status payload still reports the old
error — the successful operation does not overwrite `lastError`, contrary
to the sentence of the claim "until it is overwritten by a subsequent successful
operation". -/
theorem claim_C9_counterexample :
    (switchToMode demoModes "spa" 0 faultAt0 idleAuto).final.status.lastError =
      some "Error: boom" ∧
    (switchToMode demoModes "auto" 40000 noFault
        ((switchToMode demoModes "spa" 0 faultAt0 idleAuto).final)).final.status.mode = "auto" ∧
    (statusPayload demoModes 80000
        (switchToMode demoModes "auto" 40000 noFault
          ((switchToMode demoModes "spa" 0 faultAt0 idleAuto).final)).final).lastError =
      some "Error: boom" := by
  simp [switchToMode, beginSwitch, startTimeline, preWaitEquipment, finalizeValve,
    markMode, clearBusyTarget, recoverFromError, currentValvePercent, getValvePercentForMode,
    getMode, applyEquipmentState, statusPayload, VALVE_WAIT_MS, demoModes, demoAuto, demoSpa,
    demoService, demoAutoEquip, demoSpaEquip, idleAuto, faultAt0, noFault, List.find?,
    min_def, max_def]

/-- C9 (amended): for every failure inside a background transition,
`lastError` is updated to the message of the raised error and the status payload
reflects it; it persists until overwritten by a subsequent *failed*
operation — fault-free transitions leave `lastError` unchanged, and there is
no error-clearing operation.  (Clause 1: fault in the pre-wait driver call;
clause 2: fault in the post-wait call, reachable only for key `"spa"` with a
moving valve; clause 3: fault-free runs never touch `lastError`.) -/
theorem claim_C9_amended (modes : List ModeConfig) (modeKey : String) (t0 now : ℚ)
    (driver : Nat → Option String) (s0 : SysState) (m : ModeConfig)
    (hm : getMode modes modeKey = some m) :
    (∀ err, driver 0 = some err →
      (switchToMode modes modeKey t0 driver s0).final.status.lastError = some err ∧
      (statusPayload modes now (switchToMode modes modeKey t0 driver s0).final).lastError =
        some err) ∧
    (∀ err, modeKey = "spa" → driver 0 = none → driver 1 = some err →
      (currentValvePercent s0.valve t0 ≠ getValvePercentForMode modes modeKey ∨
        s0.valve.moving = true) →
      (switchToMode modes modeKey t0 driver s0).final.status.lastError = some err) ∧
    (driver 0 = none → driver 1 = none →
      (switchToMode modes modeKey t0 driver s0).final.status.lastError =
        s0.status.lastError) := by
  refine ⟨?_, ?_, ?_⟩
  · intro err hd
    simp only [switchToMode, hm, hd]
    exact ⟨recoverFromError_fst_lastError modes modeKey err _,
           recoverFromError_fst_lastError modes modeKey err _⟩
  · intro err hspa hd0 hd1 hmove
    subst hspa
    have hmoving : (startTimeline (currentValvePercent (beginSwitch "spa" s0).valve t0)
        (getValvePercentForMode modes "spa") t0 (beginSwitch "spa" s0)).valve.moving = true := by
      unfold startTimeline
      split
      · rfl
      · rename_i hcond
        rcases hmove with h | h
        · exact absurd h hcond
        · exact h
    simp only [switchToMode, hm, hd0, hd1, hmoving, if_true]
    exact recoverFromError_fst_lastError modes "spa" err _
  · intro hd0 hd1
    simp only [switchToMode, hm, hd0, hd1]
    split
    · split
      · simp [clearBusyTarget, markMode, finalizeValve, startTimeline_status, beginSwitch]
      · simp [clearBusyTarget, markMode, finalizeValve, startTimeline_status, beginSwitch]
    · simp [clearBusyTarget, markMode, startTimeline_status, beginSwitch]

/-- Witness for C9 (amended): the faulted pre-wait call on the demo `spa`
transition stores `"Error: boom"` and the payload shows it. -/
theorem claim_C9_witness :
    (switchToMode demoModes "spa" 0 faultAt0 idleAuto).final.status.lastError =
      some "Error: boom" ∧
    (statusPayload demoModes 40000
        (switchToMode demoModes "spa" 0 faultAt0 idleAuto).final).lastError =
      some "Error: boom" :=
  (claim_C9_amended demoModes "spa" 0 40000 faultAt0 idleAuto demoSpa (by decide)).1
    "Error: boom" rfl

end PoolSpec
